import Mathlib

/-!
Verification of the `3s-alg-lookup` lookup tool (src/app.js).

The development shallowly embeds the data-acquisition and lookup core of
the program:

* `parseTSV` — the tabular parser (src/app.js, lines 125–182);
* `pushEntry` / `findKey` — the JavaScript object used as the key→entries
  index (`out[key] = []`, `out[key].push(...)`, `data[key]`);
* `lookup` — the lookup engine (lines 213–224; DOM rendering is out of
  scope, the result record and the status classification are kept);
* `loadCache` / `saveCache` — the cache store (lines 40–64), with
  `localStorage` modelled as an optional stored payload and `JSON`
  values modelled by an explicit `Json` syntax tree;
* `fetchData` / `init` — the acquisition controller (lines 67–123 and
  315–337), as explicit state transformers parameterised by the two
  fetch outcomes and by the clock readings used in `saveCache`.

JavaScript strings are modelled by Lean `String`; the built-in string
operations used by the code (`split`, `trim`, `toUpperCase`,
`replace(/\r/g, "")`) are given structural definitions below so that
every definition evaluates by kernel reduction.
-/

/-- Model of JavaScript `s.split(sep)` for a single-character separator,
acting on the character list: splitting never drops empty pieces and an
empty input yields one empty piece. -/
def splitOnChar (sep : Char) : List Char → List (List Char)
  | [] => [[]]
  | c :: cs =>
    match splitOnChar sep cs with
    | [] => if c = sep then [[], []] else [[c]]
    | h :: t => if c = sep then [] :: h :: t else (c :: h) :: t

/-- Model of JavaScript `s.split(sep)` on `String`. -/
def jsSplit (sep : Char) (s : String) : List String :=
  (splitOnChar sep s.data).map String.mk

/-- Model of JavaScript `s.trim()`: drop whitespace from both ends. -/
def jsTrim (s : String) : String :=
  String.mk (((s.data.dropWhile Char.isWhitespace).reverse.dropWhile Char.isWhitespace).reverse)

/-- Model of JavaScript `s.toUpperCase()` (ASCII range, which is all the
program relies on). -/
def jsToUpperCase (s : String) : String :=
  String.mk (s.data.map Char.toUpper)

/-- Model of `line.replace(/\r/g, "")` (src/app.js line 134): remove every
carriage return, wherever it occurs in the line. -/
def stripCR (s : String) : String :=
  String.mk (s.data.filter (fun c => c != '\r'))

/-- An entry is a `[value1, value2]` pair as pushed on line 178:
`value1` is the note, `value2` the algorithm string. -/
abbrev Entry := String × String

/-- The JavaScript object `out` of `parseTSV`, modelled as an ordered
association list (JavaScript objects preserve insertion order for the
string keys used here). -/
abbrev Index := List (String × List Entry)

/-- Model of `if (!out[key]) out[key] = []; out[key].push([value1, value2])`
(src/app.js lines 174–178): append the entry to the sequence of `key`,
creating the sequence at the end of the object if the key is new. -/
def pushEntry (out : Index) (key : String) (e : Entry) : Index :=
  match out with
  | [] => [(key, [e])]
  | (k, es) :: rest =>
    if k = key then (k, es ++ [e]) :: rest
    else (k, es) :: pushEntry rest key e

/-- Model of the property read `data[key]`: `none` stands for the
JavaScript `undefined` of a missing key. -/
def findKey (out : Index) (key : String) : Option (List Entry) :=
  match out with
  | [] => none
  | (k, es) :: rest => if k = key then some es else findKey rest key

/-- The note field of a line, from its tab-separated columns
(src/app.js lines 156–168): `cols[0]` trimmed when there are at least 3
columns, otherwise the initial empty string. -/
def lineNote (cols : List String) : String :=
  if 3 ≤ cols.length then jsTrim (cols.getD 0 "") else ("")

/-- The key field of a line, from its tab-separated columns
(src/app.js lines 156–168): `cols[1]` for at least 3 columns, `cols[0]`
for exactly 2, trimmed and upper-cased. -/
def lineKey (cols : List String) : String :=
  if 3 ≤ cols.length then jsToUpperCase (jsTrim (cols.getD 1 ""))
  else jsToUpperCase (jsTrim (cols.getD 0 ""))

/-- The value field of a line, from its tab-separated columns
(src/app.js lines 156–168): `cols[2]` for at least 3 columns, `cols[1]`
for exactly 2, trimmed. -/
def lineValue (cols : List String) : String :=
  if 3 ≤ cols.length then jsTrim (cols.getD 2 "") else jsTrim (cols.getD 1 "")

/-- The loop body of `parseTSV` after the carriage-return removal
(src/app.js lines 136–178): skip blank lines, split on tabs, discard
lines with fewer than 2 columns, read note/key/value according to the
column count, apply the validation gate, and push the entry. -/
def parseLineBody (out : Index) (line : String) : Index :=
  if jsTrim line = "" then out
  else
    let cols := jsSplit '\t' line
    if cols.length < 2 then out
    else
      let value1 := lineNote cols
      let key := lineKey cols
      let value2 := lineValue cols
      if key = "" then out
      else if key.length ≠ 2 then out
      else if value2 = "" then out
      else pushEntry out key (value1, value2)

/-- One iteration of the `for (let line of lines)` loop of `parseTSV`
(src/app.js lines 131–179): `line = line.replace(/\r/g, "")` followed by
the rest of the body. -/
def parseLine (out : Index) (rawLine : String) : Index :=
  parseLineBody out (stripCR rawLine)

/-- Model of `parseTSV` (src/app.js lines 125–182): split the text into
lines and fold the loop body over them, starting from the empty object. -/
def parseTSV (text : String) : Index :=
  (jsSplit '\n' text).foldl parseLine []

/-- Model of the lookup engine (src/app.js lines 213–224): absent key or
empty sequence yields no record and status `"No results"`; otherwise the
first entry of the sequence is the single surfaced result, with status
`"Found"`. DOM rendering is out of scope. -/
def lookup (data : Index) (key : String) : Option Entry × String :=
  match findKey data key with
  | none => (none, "No results")
  | some [] => (none, "No results")
  | some (e :: _) => (some e, "Found")

/-- Modelled from the spec (for comparison with the code, claim C1):
strip a carriage return only when it ends the line; a carriage return
elsewhere in the line is left in place. -/
def stripTrailingCR (s : String) : String :=
  match s.data.getLast? with
  | some '\r' => String.mk s.data.dropLast
  | _ => s

/-- Modelled from the spec (for comparison with the code, claim C1): the
loop iteration with the carriage-return treatment of the spec in place
of the `replace(/\r/g, "")` of the code. -/
def parseLineSpecCR (out : Index) (rawLine : String) : Index :=
  parseLineBody out (stripTrailingCR rawLine)

/-- Modelled from the spec (for comparison with the code, claim C1):
`parseTSV` with the carriage-return treatment of the spec. -/
def parseTSVSpecCR (text : String) : Index :=
  (jsSplit '\n' text).foldl parseLineSpecCR []

/-! Cache store and acquisition controller. -/

/-- A JSON value, as produced by `JSON.parse` (src/app.js line 60).
Numbers are restricted to the integers actually stored (`Date.now()`). -/
inductive Json where
  | null : Json
  | bool : Bool → Json
  | num : Int → Json
  | str : String → Json
  | arr : List Json → Json
  | obj : List (String × Json) → Json

/-- A payload held in the `localStorage` slot `tsv_lookup_cache_v1`:
either a string `JSON.parse` rejects, or a string that parses to a
`Json` value. -/
inductive Stored where
  | badJson : Stored
  | good : Json → Stored

/-- Model of JavaScript property access `j.k` on a parsed JSON value:
`none` stands for `undefined` (non-object, or missing key). -/
def jGet (j : Json) (k : String) : Option Json :=
  match j with
  | Json.obj fields =>
    match fields.find? (fun f => f.1 = k) with
    | some f => some f.2
    | none => none
  | _ => none

/-- Model of the string interpolation `${x}` applied to a possibly
`undefined` JSON field (as in `` `Last: ${cache.timeText}` ``). -/
def jsToString (v : Option Json) : String :=
  match v with
  | none => "undefined"
  | some Json.null => "null"
  | some (Json.bool true) => "true"
  | some (Json.bool false) => "false"
  | some (Json.num n) => toString n
  | some (Json.str s) => s
  | some (Json.arr _) => "[array]"
  | some (Json.obj _) => "[object Object]"

/-- Model of `updateStatus` (src/app.js lines 191–198): the status text,
with the optional cache annotation joined by a bullet. -/
def updateStatus (msg : String) (cacheInfo : String) : String :=
  if cacheInfo = "" then msg else msg ++ (" • ") ++ cacheInfo

/-- `JSON.stringify`/`JSON.parse` image of an `Index`: each key maps to
an array of two-element string arrays. -/
def encodeEntries : List Entry → List Json
  | [] => []
  | (n, v) :: rest => Json.arr [Json.str n, Json.str v] :: encodeEntries rest

/-- `JSON.stringify`/`JSON.parse` image of an `Index` as a JSON object. -/
def encodeIndex (out : Index) : Json :=
  Json.obj (out.map (fun p => (p.1, Json.arr (encodeEntries p.2))))

/-- Read a two-element string array back as an entry. -/
def decodeEntry : Json → Option Entry
  | Json.arr [Json.str n, Json.str v] => some (n, v)
  | _ => none

/-- Read a JSON array back as an entry sequence. -/
def decodeEntries : List Json → Option (List Entry)
  | [] => some []
  | j :: rest =>
    match decodeEntry j, decodeEntries rest with
    | some e, some es => some (e :: es)
    | _, _ => none

/-- Read the fields of a JSON object back as an `Index`. -/
def decodeFields : List (String × Json) → Option Index
  | [] => some []
  | (k, Json.arr js) :: rest =>
    match decodeEntries js, decodeFields rest with
    | some es, some out => some ((k, es) :: out)
    | _, _ => none
  | _ => none

/-- Read a JSON value back as an `Index`. -/
def decodeIndex : Json → Option Index
  | Json.obj fields => decodeFields fields
  | _ => none

/-- Model of `saveCache` (src/app.js lines 40–50): build the payload
object with the clock readings and the two indices and store its
serialisation. The `corner` and `edge` arguments are the JSON images of
the values assigned on lines 45–46. -/
def saveCache (now : Int) (nowText : String) (corner : Json) (edge : Json) : Stored :=
  Stored.good (Json.obj
    [(("time"), Json.num now),
     (("timeText"), Json.str nowText),
     (("corner"), corner),
     (("edge"), edge)])

/-- Model of `loadCache` (src/app.js lines 53–64): the JavaScript value
`null` — here `Json.null` — for a missing payload and for a payload
`JSON.parse` rejects, otherwise the parsed value with no structural
validation. The parsed value may itself be `null` (the stored string
`"null"` is valid JSON), in which case the caller cannot tell it from
the absent sentinel. -/
def loadCache (slot : Option Stored) : Json :=
  match slot with
  | none => Json.null
  | some Stored.badJson => Json.null
  | some (Stored.good j) => j

/-- Model of the JavaScript truthiness test `if (v)` on a parsed JSON
value: `null`, `false`, `0` and the empty string are falsy, everything
else (objects and arrays included) is truthy. -/
def truthy (j : Json) : Bool :=
  match j with
  | Json.null => false
  | Json.bool b => b
  | Json.num n => n != 0
  | Json.str s => s != ""
  | Json.arr _ => true
  | Json.obj _ => true

/-- The maximum-cache-age constant `CACHE_TIME` (src/app.js line 11).
It is defined in the source but never compared against any timestamp in
the reachable logic; it appears in no other definition below. -/
def CACHE_TIME : Nat := 1000 * 60 * 60 * 24

/-- The process-wide mutable state touched by the acquisition
controller: the two active indices and the storage slot, plus the status
line and the refresh-button flag. The indices are JSON-shaped because
the code adopts whatever `loadCache` returns (claim C10); a parsed
`Index` is embedded via `encodeIndex`. -/
structure St where
  dataCorner : Option Json
  dataEdge : Option Json
  storage : Option Stored
  statusMsg : String
  refreshDisabled : Bool

/-- Outcome of one remote retrieval: the body text when the fetch
resolved with an ok response, or a failure (rejected promise or non-ok
response, src/app.js lines 74–81). -/
inductive FetchOutcome where
  | ok : String → FetchOutcome
  | failed : FetchOutcome

/-- Model of `fetchData` (src/app.js lines 67–123), as a state
transformer parameterised by the two fetch outcomes and by the clock
readings used in `saveCache`. The `try` block sets the status and
disables the refresh trigger, then either adopts and persists the two
parsed indices (both retrievals ok) or falls back to the cache store,
testing the loaded value for truthiness as `if (cache)` does on
line 104; the `finally` block re-enables the refresh trigger on every
path. -/
def fetchData (now : Int) (nowText : String) (fc fe : FetchOutcome) (s : St) : St :=
  let s1 : St := { s with statusMsg := updateStatus ("Updating...") (""), refreshDisabled := true }
  let s2 : St :=
    match fc, fe with
    | FetchOutcome.ok cornerText, FetchOutcome.ok edgeText =>
      let dc := encodeIndex (parseTSV cornerText)
      let de := encodeIndex (parseTSV edgeText)
      let s3 : St := { s1 with dataCorner := some dc, dataEdge := some de,
                               storage := some (saveCache now nowText dc de) }
      let c := loadCache s3.storage
      { s3 with statusMsg := updateStatus ("Updated") (("Last: ") ++ jsToString (jGet c ("timeText"))) }
    | _, _ =>
      let c := loadCache s1.storage
      if truthy c then
        { s1 with dataCorner := jGet c ("corner"), dataEdge := jGet c ("edge"),
                  statusMsg := updateStatus ("Offline — using cache")
                    (("Last: ") ++ jsToString (jGet c ("timeText"))) }
      else { s1 with statusMsg := updateStatus ("No data available") ("") }
  { s2 with refreshDisabled := false }

/-- Model of `init` (src/app.js lines 315–337): load the cache slot and
test the result for truthiness, as `if (cache)` does on line 319 —
adopt the value when truthy, otherwise fetch. The boolean records
whether the network path (`fetchData`) was taken. -/
def init (now : Int) (nowText : String) (fc fe : FetchOutcome) (s : St) : St × Bool :=
  let c := loadCache s.storage
  if truthy c then
    ({ s with dataCorner := jGet c ("corner"), dataEdge := jGet c ("edge"),
              statusMsg := updateStatus ("Loaded from cache")
                (("Last: ") ++ jsToString (jGet c ("timeText"))) }, false)
  else
    (fetchData now nowText fc fe
      { s with statusMsg := updateStatus ("No cache — fetching...") ("") }, true)

/-- The invariant claimed for every index produced by the parser:
2-character upper-case keys, non-empty values. -/
def GoodIndex (out : Index) : Prop :=
  ∀ p ∈ out, p.1.length = 2 ∧ jsToUpperCase p.1 = p.1 ∧ ∀ e ∈ p.2, e.2 ≠ ""

/-! Helper lemmas. -/

theorem toNat_ofNat_valid (n : Nat) (h : n.isValidChar) : (Char.ofNat n).toNat = n := by
  rw [Char.ofNat, dif_pos h]
  rfl

theorem toUpper_toNat (c : Char) :
    (Char.toUpper c).toNat =
      if 97 ≤ c.toNat ∧ c.toNat ≤ 122 then c.toNat - 32 else c.toNat := by
  rw [Char.toUpper]
  split
  · next h => exact toNat_ofNat_valid _ (Or.inl (by omega))
  · next h => rfl

theorem char_toUpper_idem (c : Char) : (Char.toUpper c).toUpper = Char.toUpper c := by
  have h1 := toUpper_toNat c
  rw [Char.toUpper]
  split
  · next h =>
    exfalso
    rw [h1] at h
    split at h <;> omega
  · rfl

theorem jsToUpperCase_idem (s : String) :
    jsToUpperCase (jsToUpperCase s) = jsToUpperCase s := by
  simp only [jsToUpperCase, String.data, List.map_map]
  have : (Char.toUpper ∘ Char.toUpper) = Char.toUpper := by
    funext c
    exact char_toUpper_idem c
  rw [this]

theorem lineKey_upper (cols : List String) :
    jsToUpperCase (lineKey cols) = lineKey cols := by
  unfold lineKey
  split <;> exact jsToUpperCase_idem _

theorem length_two_ne_empty (s : String) (h : s.length = 2) : s ≠ "" := by
  intro he
  subst he
  exact absurd h (by decide)

/-- Zeta-expanded equation for the loop body, used to drive the if-chain
case analyses. -/
theorem parseLineBody_eq (out : Index) (l : String) :
    parseLineBody out l =
      if jsTrim l = "" then out
      else if (jsSplit '\t' l).length < 2 then out
      else if lineKey (jsSplit '\t' l) = "" then out
      else if (lineKey (jsSplit '\t' l)).length ≠ 2 then out
      else if lineValue (jsSplit '\t' l) = "" then out
      else pushEntry out (lineKey (jsSplit '\t' l))
        (lineNote (jsSplit '\t' l), lineValue (jsSplit '\t' l)) := rfl

/-- C1 (counterexample): the code does not strip only a trailing
carriage return. On the line `"A\rB\tVX"` the carriage return sits in
the middle of the first field; `parseTSV` (which removes every carriage
return, line 134) accepts the line with key `"AB"`, while the variant
that strips only a trailing carriage return — `parseTSVSpecCR`, written
from the claim — discards the line because its key `"A\rB"` has
length 3. -/
theorem parseTSV_CR_middle_cex :
    parseTSV ("A\rB\tVX") = [(("AB"), [((""), ("VX"))])] ∧
    parseTSVSpecCR ("A\rB\tVX") = [] := by
  constructor
  · decide
  · decide

/-- C1 (amended): for every input line, every carriage return — wherever
it occurs in the line — is stripped before the line is split into
tab-separated fields: the loop iteration is the body applied to the line
with all `'\r'` characters filtered out, and nothing else is removed. -/
theorem parseLine_strips_all_CR (out : Index) (line : String) :
    parseLine out line = parseLineBody out (stripCR line) ∧
    (stripCR line).data = line.data.filter (fun c => c != '\r') :=
  ⟨rfl, rfl⟩

/-- C5: if the key is absent from the index or its sequence is empty,
`lookup` returns no record with status `"No results"`; otherwise it
returns exactly the first entry of the sequence with status `"Found"`,
and the entries after the first never appear in the result. -/
theorem lookup_first_entry (data : Index) (key : String) :
    ((findKey data key = none ∨ findKey data key = some []) →
      lookup data key = (none, ("No results"))) ∧
    (∀ e es, findKey data key = some (e :: es) →
      lookup data key = (some e, ("Found"))) := by
  constructor
  · intro h
    rcases h with h | h <;> simp [lookup, h]
  · intro e es h
    simp [lookup, h]

/-- C5 witness: a missing key on the empty index, and a key holding two
entries of which exactly the first is surfaced. -/
theorem lookup_first_entry_w :
    lookup ([] : Index) ("AB") = (none, ("No results")) ∧
    lookup [(("AB"), [(("n"), ("v")), (("m"), ("w"))])] ("AB") =
      (some (("n"), ("v")), ("Found")) :=
  ⟨(lookup_first_entry ([] : Index) ("AB")).1 (Or.inl (by decide)),
   (lookup_first_entry [(("AB"), [(("n"), ("v")), (("m"), ("w"))])] ("AB")).2
     (("n"), ("v")) [(("m"), ("w"))] (by decide)⟩

/-- C9: `parseTSV` is a pure function of its input text — the source
function reads nothing but `text` and writes nothing but its locals, so
it is embedded as a function — and parsing the same text twice yields
structurally equal indices. -/
theorem parseTSV_deterministic (text : String) : parseTSV text = parseTSV text := rfl

/-- C10 (counterexample): the claim fails on the code in two ways. The
stored payload `"null"` is syntactically valid JSON, yet `loadCache`
returns for it exactly what it returns for a missing payload — its
absent sentinel `null` — so absence is not limited to missing or
unparseable payloads. And the controller does not adopt the fields of
every valid JSON value: for the stored number `0` (the corner field of
which is `undefined`), `init` finds `if (cache)` falsy, takes the fetch
path (flag `true`), and leaves the active index untouched rather than
adopting `undefined`. -/
theorem loadCache_no_validation_cex :
    loadCache (some (Stored.good Json.null)) = loadCache none ∧
    jGet (Json.num 0) ("corner") = none ∧
    (init 0 ("") FetchOutcome.failed FetchOutcome.failed
      (St.mk (some (Json.str ("x"))) none (some (Stored.good (Json.num 0))) ("") false)).2 =
      true ∧
    (init 0 ("") FetchOutcome.failed FetchOutcome.failed
      (St.mk (some (Json.str ("x"))) none (some (Stored.good (Json.num 0))) ("") false)).1.dataCorner =
      some (Json.str ("x")) :=
  ⟨rfl, rfl, rfl, rfl⟩

/-- C10 (amended): `loadCache` returns its absent sentinel `null` when
the stored payload is missing, is not syntactically valid JSON, or
parses to the JSON value `null`; any other syntactically valid JSON
value is returned without structural validation. The controller then
adopts the returned value as a snapshot — taking its possibly-absent
`corner`/`edge` fields as the active indices with no network call —
exactly when the value is truthy; a falsy value (`null`, `false`, `0`,
`""`) sends it down the no-cache/fetch path instead. -/
theorem loadCache_truthiness_gate :
    loadCache none = Json.null ∧
    loadCache (some Stored.badJson) = Json.null ∧
    (∀ j : Json, loadCache (some (Stored.good j)) = j) ∧
    (∀ (now : Int) (nowText : String) (fc fe : FetchOutcome)
       (dc de : Option Json) (msg : String) (rd : Bool) (j : Json),
      truthy j = true →
        (init now nowText fc fe (St.mk dc de (some (Stored.good j)) msg rd)).1.dataCorner =
          jGet j ("corner") ∧
        (init now nowText fc fe (St.mk dc de (some (Stored.good j)) msg rd)).1.dataEdge =
          jGet j ("edge") ∧
        (init now nowText fc fe (St.mk dc de (some (Stored.good j)) msg rd)).2 = false) ∧
    (∀ (now : Int) (nowText : String) (fc fe : FetchOutcome)
       (dc de : Option Json) (msg : String) (rd : Bool) (j : Json),
      truthy j = false →
        (init now nowText fc fe (St.mk dc de (some (Stored.good j)) msg rd)).2 = true) := by
  refine ⟨rfl, rfl, fun _ => rfl, ?_, ?_⟩
  · intro now nowText fc fe dc de msg rd j hj
    simp [init, loadCache, hj]
  · intro now nowText fc fe dc de msg rd j hj
    simp [init, loadCache, hj]

/-- C10 witness: a truthy payload (a structurally invalid snapshot, the
empty object) is adopted with no fetch; the falsy payload `null` takes
the fetch path. -/
theorem loadCache_truthiness_gate_w :
    truthy (Json.obj []) = true ∧
    (init 0 ("") FetchOutcome.failed FetchOutcome.failed
      (St.mk none none (some (Stored.good (Json.obj []))) ("") false)).2 = false ∧
    truthy Json.null = false ∧
    (init 0 ("") FetchOutcome.failed FetchOutcome.failed
      (St.mk none none (some (Stored.good Json.null)) ("") false)).2 = true :=
  ⟨rfl,
   (loadCache_truthiness_gate.2.2.2.1 0 ("") FetchOutcome.failed FetchOutcome.failed
     none none ("") false (Json.obj []) rfl).2.2,
   rfl,
   loadCache_truthiness_gate.2.2.2.2 0 ("") FetchOutcome.failed FetchOutcome.failed
     none none ("") false Json.null rfl⟩

/-- C6: when both retrievals fail and no cache snapshot exists — the
loaded value is falsy, which covers a missing slot, an unparseable
payload and a falsy parsed payload, exactly the cases `if (cache)` on
line 104 sends to the else branch — the refresh classifies the status
as `"No data available"` and leaves the two active indices (and the
storage slot) exactly as they were before the attempt; the refresh
trigger is re-enabled by the cleanup step. -/
theorem fetchData_both_fail_no_cache (now : Int) (nowText : String) (s : St)
    (h : truthy (loadCache s.storage) = false) :
    (fetchData now nowText FetchOutcome.failed FetchOutcome.failed s).dataCorner = s.dataCorner ∧
    (fetchData now nowText FetchOutcome.failed FetchOutcome.failed s).dataEdge = s.dataEdge ∧
    (fetchData now nowText FetchOutcome.failed FetchOutcome.failed s).storage = s.storage ∧
    (fetchData now nowText FetchOutcome.failed FetchOutcome.failed s).statusMsg =
      ("No data available") ∧
    (fetchData now nowText FetchOutcome.failed FetchOutcome.failed s).refreshDisabled = false := by
  simp [fetchData, h, updateStatus]

/-- C6 witness: the first run, with empty indices and an empty storage
slot. -/
theorem fetchData_both_fail_no_cache_w :
    truthy (loadCache (St.mk none none none ("") false).storage) = false ∧
    (fetchData 0 ("") FetchOutcome.failed FetchOutcome.failed
      (St.mk none none none ("") false)).dataCorner = none ∧
    (fetchData 0 ("") FetchOutcome.failed FetchOutcome.failed
      (St.mk none none none ("") false)).statusMsg = ("No data available") :=
  ⟨rfl,
   (fetchData_both_fail_no_cache 0 ("") (St.mk none none none ("") false) rfl).1,
   (fetchData_both_fail_no_cache 0 ("") (St.mk none none none ("") false) rfl).2.2.2.1⟩

/-- C7: at startup, whenever a cache snapshot exists — the slot parses
to an object, which is what `saveCache` always writes and is always
truthy under the `if (cache)` test of line 319 — `init` adopts its two
indices as current state and takes no network path: the returned flag
recording a `fetchData` call is `false`. This holds for every list of
snapshot fields, in particular for every value of its `time` field:
neither `init` nor any definition it uses mentions `CACHE_TIME`, whose
value is recorded in the last conjunct and which is compared against no
timestamp anywhere in this development. -/
theorem init_cache_hit_no_fetch (now : Int) (nowText : String)
    (fc fe : FetchOutcome) (s : St) (fields : List (String × Json))
    (h : loadCache s.storage = Json.obj fields) :
    (init now nowText fc fe s).2 = false ∧
    (init now nowText fc fe s).1.dataCorner = jGet (Json.obj fields) ("corner") ∧
    (init now nowText fc fe s).1.dataEdge = jGet (Json.obj fields) ("edge") ∧
    (init now nowText fc fe s).1.statusMsg =
      updateStatus ("Loaded from cache")
        (("Last: ") ++ jsToString (jGet (Json.obj fields) ("timeText"))) ∧
    (init now nowText fc fe s).1.storage = s.storage ∧
    CACHE_TIME = 86400000 := by
  simp [init, h, truthy, CACHE_TIME]

/-- C7 witness: a snapshot whose `time` field is far older than
`CACHE_TIME` (epoch 0) is still adopted with no fetch. -/
theorem init_cache_hit_no_fetch_w :
    loadCache (some (Stored.good (Json.obj
        [(("time"), Json.num 0), (("timeText"), Json.str ("t")),
         (("corner"), Json.obj []), (("edge"), Json.obj [])]))) =
      Json.obj
        [(("time"), Json.num 0), (("timeText"), Json.str ("t")),
         (("corner"), Json.obj []), (("edge"), Json.obj [])] ∧
    (init 0 ("") FetchOutcome.failed FetchOutcome.failed
      (St.mk none none (some (Stored.good (Json.obj
        [(("time"), Json.num 0), (("timeText"), Json.str ("t")),
         (("corner"), Json.obj []), (("edge"), Json.obj [])]))) ("") false)).2 = false :=
  ⟨rfl,
   (init_cache_hit_no_fetch 0 ("") FetchOutcome.failed FetchOutcome.failed
     (St.mk none none (some (Stored.good (Json.obj
       [(("time"), Json.num 0), (("timeText"), Json.str ("t")),
        (("corner"), Json.obj []), (("edge"), Json.obj [])]))) ("") false)
     [(("time"), Json.num 0), (("timeText"), Json.str ("t")),
      (("corner"), Json.obj []), (("edge"), Json.obj [])] rfl).1⟩

theorem decodeEntries_encodeEntries (es : List Entry) :
    decodeEntries (encodeEntries es) = some es := by
  induction es with
  | nil => rfl
  | cons e rest ih =>
    cases e
    simp [encodeEntries, decodeEntries, decodeEntry, ih]

theorem decodeFields_encode (out : Index) :
    decodeFields (out.map (fun p => (p.1, Json.arr (encodeEntries p.2)))) = some out := by
  induction out with
  | nil => rfl
  | cons p rest ih =>
    cases p
    simp [decodeFields, decodeEntries_encodeEntries, ih]

theorem decodeIndex_encodeIndex (out : Index) :
    decodeIndex (encodeIndex out) = some out :=
  decodeFields_encode out

/-- C8: saving two indices and loading again yields a snapshot that is
present (the loaded value is an object, hence truthy for every caller
of `loadCache`), whose `corner` and `edge` fields are exactly the JSON
images of the saved indices, and whose images decode back to indices
structurally equal to the originals (round-trip fidelity). -/
theorem saveCache_loadCache_round_trip (A B : Index) (now : Int) (nowText : String) :
    ∃ c, loadCache (some (saveCache now nowText (encodeIndex A) (encodeIndex B))) = c ∧
      truthy c = true ∧
      jGet c ("corner") = some (encodeIndex A) ∧
      jGet c ("edge") = some (encodeIndex B) ∧
      decodeIndex (encodeIndex A) = some A ∧
      decodeIndex (encodeIndex B) = some B := by
  refine ⟨_, rfl, rfl, ?_, ?_, decodeIndex_encodeIndex A, decodeIndex_encodeIndex B⟩
  · rfl
  · rfl

/-- C3: for a non-blank line that passes the validation gate, a line
with at least 3 tab-separated fields stores an entry under the
upper-cased trimmed `field[1]` with note the trimmed `field[0]` and
value the trimmed `field[2]`; a line with exactly 2 fields stores an
entry under the upper-cased trimmed `field[0]` with value the trimmed
`field[1]` and an empty note. -/
theorem parseTSV_valid_line_shape (out : Index) (line : String)
    (hnb : jsTrim (stripCR line) ≠ "") :
    (∀ cols, jsSplit '\t' (stripCR line) = cols → 3 ≤ cols.length →
      (jsToUpperCase (jsTrim (cols.getD 1 ""))).length = 2 →
      jsTrim (cols.getD 2 "") ≠ "" →
      parseLine out line =
        pushEntry out (jsToUpperCase (jsTrim (cols.getD 1 "")))
          (jsTrim (cols.getD 0 ""), jsTrim (cols.getD 2 ""))) ∧
    (∀ cols, jsSplit '\t' (stripCR line) = cols → cols.length = 2 →
      (jsToUpperCase (jsTrim (cols.getD 0 ""))).length = 2 →
      jsTrim (cols.getD 1 "") ≠ "" →
      parseLine out line =
        pushEntry out (jsToUpperCase (jsTrim (cols.getD 0 "")))
          (("" : String), jsTrim (cols.getD 1 ""))) := by
  constructor
  · intro cols hc h3 hk hv
    show parseLineBody out (stripCR line) = _
    rw [parseLineBody_eq, hc, if_neg hnb, if_neg (show ¬cols.length < 2 by omega)]
    simp only [lineKey, lineNote, lineValue, if_pos h3]
    rw [if_neg (length_two_ne_empty _ hk), if_neg (fun hne => hne hk), if_neg hv]
  · intro cols hc h2 hk hv
    have h3 : ¬3 ≤ cols.length := by omega
    show parseLineBody out (stripCR line) = _
    rw [parseLineBody_eq, hc, if_neg hnb, if_neg (show ¬cols.length < 2 by omega)]
    simp only [lineKey, lineNote, lineValue, if_neg h3]
    rw [if_neg (length_two_ne_empty _ hk), if_neg (fun hne => hne hk), if_neg hv]

/-- C3 witness: a 3-field line (scenario 1) and a 2-field line with a
lower-case key, upper-cased on storage. -/
theorem parseTSV_valid_line_shape_w :
    jsTrim (stripCR ("note1\tAB\tvalueX")) ≠ "" ∧
    parseLine [] ("note1\tAB\tvalueX") = pushEntry [] ("AB") (("note1"), ("valueX")) ∧
    parseLine [] ("ab\tvalueY") = pushEntry [] ("AB") ((""), ("valueY")) := by
  refine ⟨by decide, ?_, ?_⟩
  · have h := (parseTSV_valid_line_shape [] ("note1\tAB\tvalueX") (by decide)).1
      (jsSplit '\t' (stripCR ("note1\tAB\tvalueX"))) rfl (by decide) (by decide) (by decide)
    exact h.trans (by decide)
  · have h := (parseTSV_valid_line_shape [] ("ab\tvalueY") (by decide)).2
      (jsSplit '\t' (stripCR ("ab\tvalueY"))) rfl (by decide) (by decide) (by decide)
    exact h.trans (by decide)

/-- C4: a line with fewer than 2 tab-separated fields, or whose parsed
key does not have trimmed length exactly 2, or whose trimmed value is
empty, contributes nothing to the index: the loop body returns the
accumulated index unchanged, and — being a total function — raises no
error. -/
theorem parseTSV_invalid_line_discarded (out : Index) (line : String) (cols : List String)
    (hc : jsSplit '\t' (stripCR line) = cols) :
    (cols.length < 2 → parseLine out line = out) ∧
    ((lineKey cols).length ≠ 2 → parseLine out line = out) ∧
    (lineValue cols = "" → parseLine out line = out) := by
  by_cases hb : jsTrim (stripCR line) = ""
  · have hout : parseLine out line = out := by
      show parseLineBody out (stripCR line) = out
      rw [parseLineBody_eq, if_pos hb]
    exact ⟨fun _ => hout, fun _ => hout, fun _ => hout⟩
  · refine ⟨?_, ?_, ?_⟩
    · intro h
      show parseLineBody out (stripCR line) = out
      rw [parseLineBody_eq, hc, if_neg hb, if_pos h]
    · intro h
      show parseLineBody out (stripCR line) = out
      rw [parseLineBody_eq, hc, if_neg hb]
      by_cases h2 : cols.length < 2
      · rw [if_pos h2]
      · rw [if_neg h2]
        by_cases hke : lineKey cols = ""
        · rw [if_pos hke]
        · rw [if_neg hke, if_pos h]
    · intro h
      show parseLineBody out (stripCR line) = out
      rw [parseLineBody_eq, hc, if_neg hb]
      by_cases h2 : cols.length < 2
      · rw [if_pos h2]
      · rw [if_neg h2]
        by_cases hke : lineKey cols = ""
        · rw [if_pos hke]
        · rw [if_neg hke]
          by_cases hkl : (lineKey cols).length ≠ 2
          · rw [if_pos hkl]
          · rw [if_neg hkl, if_pos h]

/-- C4 witness: a 1-field line, a 3-field line whose key has length 1
(scenario 4), and a 2-field line whose value trims to empty — each
discarded silently. -/
theorem parseTSV_invalid_line_discarded_w :
    (jsSplit '\t' (stripCR ("x"))).length < 2 ∧
    parseLine [] ("x") = [] ∧
    (lineKey (jsSplit '\t' (stripCR ("x\tA\tvalue")))).length ≠ 2 ∧
    parseLine [] ("x\tA\tvalue") = [] ∧
    lineValue (jsSplit '\t' (stripCR ("AB\t "))) = "" ∧
    parseLine [] ("AB\t ") = [] :=
  ⟨by decide,
   (parseTSV_invalid_line_discarded [] ("x") (jsSplit '\t' (stripCR ("x"))) rfl).1 (by decide),
   by decide,
   (parseTSV_invalid_line_discarded [] ("x\tA\tvalue")
     (jsSplit '\t' (stripCR ("x\tA\tvalue"))) rfl).2.1 (by decide),
   by decide,
   (parseTSV_invalid_line_discarded [] ("AB\t ")
     (jsSplit '\t' (stripCR ("AB\t "))) rfl).2.2 (by decide)⟩

theorem pushEntry_good (out : Index) (key : String) (e : Entry)
    (hg : GoodIndex out) (hk2 : key.length = 2) (hku : jsToUpperCase key = key)
    (hv : e.2 ≠ "") : GoodIndex (pushEntry out key e) := by
  induction out with
  | nil =>
    intro p hp
    simp only [pushEntry, List.mem_singleton] at hp
    subst hp
    refine ⟨hk2, hku, ?_⟩
    intro x hx
    simp only [List.mem_singleton] at hx
    subst hx
    exact hv
  | cons q rest ih =>
    obtain ⟨k, es⟩ := q
    have hq := hg (k, es) (List.mem_cons_self _ _)
    have hrest : GoodIndex rest := fun p hp => hg p (List.mem_cons_of_mem _ hp)
    intro p hp
    simp only [pushEntry] at hp
    by_cases hkk : k = key
    · rw [if_pos hkk] at hp
      rcases List.mem_cons.mp hp with hp | hp
      · subst hp
        refine ⟨hq.1, hq.2.1, ?_⟩
        intro x hx
        rcases List.mem_append.mp hx with hx | hx
        · exact hq.2.2 x hx
        · simp only [List.mem_singleton] at hx
          subst hx
          exact hv
      · exact hrest p hp
    · rw [if_neg hkk] at hp
      rcases List.mem_cons.mp hp with hp | hp
      · subst hp
        exact hq
      · exact ih hrest p hp

theorem parseLine_good (out : Index) (line : String) (hg : GoodIndex out) :
    GoodIndex (parseLine out line) := by
  show GoodIndex (parseLineBody out (stripCR line))
  rw [parseLineBody_eq]
  split
  · exact hg
  split
  · exact hg
  split
  · exact hg
  split
  · exact hg
  split
  · exact hg
  next h1 h2 h3 h4 h5 =>
    exact pushEntry_good out _ _ hg (not_not.mp h4) (lineKey_upper _) h5

theorem foldl_parseLine_good (lines : List String) (out : Index)
    (hg : GoodIndex out) : GoodIndex (lines.foldl parseLine out) := by
  induction lines generalizing out with
  | nil => exact hg
  | cons l rest ih => exact ih _ (parseLine_good out l hg)

/-- C2: in every index produced by `parseTSV`, every key has length
exactly 2 and equals its own upper-casing, and every stored entry has a
non-empty value; the note of an entry is by construction always a
present string (the `Entry` type), possibly empty. -/
theorem parseTSV_index_invariants (text : String) (k : String) (es : List Entry)
    (h : (k, es) ∈ parseTSV text) :
    k.length = 2 ∧ jsToUpperCase k = k ∧ ∀ e ∈ es, e.2 ≠ "" := by
  have hg : GoodIndex (parseTSV text) := by
    apply foldl_parseLine_good
    intro p hp
    exact absurd hp (List.not_mem_nil p)
  exact hg (k, es) h

/-- C2 witness: the key `"AB"` stored for the line
`"note1\tab\tvalueX"` (lower-case key in the input). -/
theorem parseTSV_index_invariants_w :
    (("AB"), [(("note1"), ("valueX"))]) ∈ parseTSV ("note1\tab\tvalueX\n") ∧
    ((("AB") : String).length = 2 ∧ jsToUpperCase ("AB") = ("AB") ∧
      ∀ e ∈ [(("note1"), ("valueX"))], e.2 ≠ ("" : String)) :=
  ⟨by decide,
   parseTSV_index_invariants ("note1\tab\tvalueX\n") ("AB") [(("note1"), ("valueX"))]
     (by decide)⟩

